import Mathlib

/-!
Verification of the Atlas frontend (Next.js) against its specification.

The development shallowly embeds the input form component
(`frontend/app/page.tsx`, the file with the form state, `validateForm`,
`handleSubmit`, `handleChange`) and the report page
(`frontend/app/report/page.tsx`, the `AnalyzeResponse` interface and the
render conditions), together with spec-modelled definitions for the backend
pipeline stages (Market Model Builder, Scenario Generator, Sensitivity
Analyzer, Confidence Scorer, response assembly) whose Python sources are not
part of the verified tree.

Numbers are modelled as `Rat`; JavaScript `null`/`undefined` as `Option`.
-/

/-! ### A model of the JavaScript number-parsing builtin

`parseFloat` skips leading whitespace, reads an optional sign and then the
longest prefix that is a decimal literal, and returns `NaN` when no digit can
be read.  The model covers sign, integer digits and fractional digits (the
forms the form field can contain); `none` stands for `NaN`. -/

/-- Longest prefix of decimal digits (as digit values) and the rest. -/
def takeDigits : List Char → List Nat × List Char
  | [] => ([], [])
  | c :: cs =>
    if c.isDigit then
      let (ds, rest) := takeDigits cs
      ((c.toNat - 48) :: ds, rest)
    else ([], c :: cs)

/-- Digit list to natural number, most significant first. -/
def digitsToNat (ds : List Nat) : Nat :=
  ds.foldl (fun a d => a * 10 + d) 0

/-- Model of `parseFloat` on a character list: optional whitespace, optional
sign, digits, optional point and fraction digits; `none` models `NaN`.  The
value `s(i.f)` is represented as the rational `s(i * 10^k + f) / 10^k` with
`k` the number of fraction digits. -/
def parseFloatCore (cs0 : List Char) : Option Rat :=
  let cs1 := cs0.dropWhile (fun c => c.isWhitespace)
  let sign : Int := match cs1 with
    | '-' :: _ => -1
    | _ => 1
  let cs2 : List Char := match cs1 with
    | '-' :: rest => rest
    | '+' :: rest => rest
    | _ => cs1
  let ip := takeDigits cs2
  let fracs : List Nat := match ip.2 with
    | '.' :: rest => (takeDigits rest).1
    | _ => []
  if ip.1.isEmpty ∧ fracs.isEmpty then none
  else some (mkRat (sign * (digitsToNat ip.1 * 10 ^ fracs.length + digitsToNat fracs : Nat))
    (10 ^ fracs.length))

/-- Model of the JavaScript `parseFloat` builtin on strings. -/
def parseFloat (s : String) : Option Rat :=
  parseFloatCore s.data

/-- Model of the JavaScript `String.prototype.trim` builtin: strips leading
and trailing whitespace. -/
def jsTrim (s : String) : String :=
  String.mk (((s.data.dropWhile fun c => c.isWhitespace).reverse.dropWhile
    fun c => c.isWhitespace).reverse)

/-! ### The input form (`frontend/app/page.tsx`)

The component state `formData` initialised at lines 45-53 of the source:
seven string-valued fields, all initially empty. -/

/-- The `formData` state of the input form component. -/
structure FormData where
  idea : String
  industry : String
  geography : String
  customer_type : String
  business_model : String
  price_assumption : String
  notes : String
deriving DecidableEq

/-- The `EXAMPLE_DATA` constant filled in by the Try-an-example button. -/
def exampleData : FormData :=
  { idea := "AI-powered personal finance management app that helps consumers optimize savings and investments with automated recommendations"
    industry := "FinTech"
    geography := "European Union"
    customer_type := "Consumer"
    business_model := "SaaS"
    price_assumption := "9.99"
    notes := "Focus on GDPR compliance and multi-currency support. Target users aged 25-45 with disposable income." }

/-- The `newErrors` record built by `validateForm`: field name paired with the
error message, in the order the source inserts them.  A field check that
passes contributes no entry. -/
def validateForm (fd : FormData) : List (String × String) :=
  (if jsTrim fd.idea = "" then [("idea", "Startup idea is required")] else []) ++
  (if jsTrim fd.industry = "" then [("industry", "Industry is required")] else []) ++
  (if fd.geography = "" then [("geography", "Geography is required")] else []) ++
  (if fd.customer_type = "" then [("customer_type", "Customer type is required")] else []) ++
  (if fd.business_model = "" then [("business_model", "Business model is required")] else []) ++
  (if fd.price_assumption ≠ "" ∧ parseFloat fd.price_assumption = none then
    [("price_assumption", "Price assumption must be a valid number")] else [])

/-- Return value of `validateForm`: true when `Object.keys(newErrors)` is
empty. -/
def validateFormOk (fd : FormData) : Bool :=
  (validateForm fd).length == 0

/-- The JavaScript value stored under `price_assumption` in the request:
`null` for an empty field, otherwise the `parseFloat` result (which is `NaN`
when the field does not parse; that branch is unreachable after validation). -/
inductive StoredPrice where
  | null : StoredPrice
  | num : Rat → StoredPrice
  | nan : StoredPrice
deriving DecidableEq

/-- The `requestData` object written to `localStorage` by `handleSubmit`:
the spread of `formData` with `price_assumption` replaced and `debug: false`
appended. -/
structure RequestData where
  idea : String
  industry : String
  geography : String
  customer_type : String
  business_model : String
  price_assumption : StoredPrice
  notes : String
  debug : Bool
deriving DecidableEq

/-- Builds the `requestData` object of `handleSubmit` from the form state. -/
def buildRequest (fd : FormData) : RequestData :=
  { idea := fd.idea
    industry := fd.industry
    geography := fd.geography
    customer_type := fd.customer_type
    business_model := fd.business_model
    price_assumption :=
      if fd.price_assumption ≠ "" then
        match parseFloat fd.price_assumption with
        | some q => StoredPrice.num q
        | none => StoredPrice.nan
      else StoredPrice.null
    notes := fd.notes
    debug := false }

/-- Outcome of `handleSubmit`: either the submission is rejected with the
per-field errors set by `validateForm`, or the request object is stored in
`localStorage` and the router navigates to the report page. -/
inductive SubmitOutcome where
  | rejected : List (String × String) → SubmitOutcome
  | submitted : RequestData → SubmitOutcome
deriving DecidableEq

/-- `handleSubmit`: returns early when `validateForm` fails, otherwise stores
the request and navigates. -/
def handleSubmit (fd : FormData) : SubmitOutcome :=
  if validateFormOk fd then SubmitOutcome.submitted (buildRequest fd)
  else SubmitOutcome.rejected (validateForm fd)

/-- JavaScript truthiness of an optional string (the `errors[name]` check in
`handleChange`): truthy when present and non-empty. -/
def jsTruthy : Option String → Bool
  | none => false
  | some s => s ≠ ""

/-- `handleChange`: the `formData` record is spread with the changed field
set to the new value, and the error entry for that field is deleted when it
is truthy.  The two records are modelled as maps from field names. -/
def handleChange (name value : String) (formData : String → String)
    (errors : String → Option String) :
    (String → String) × (String → Option String) :=
  (Function.update formData name value,
   if jsTruthy (errors name) then Function.update errors name none else errors)

/-! ### Spec-modelled backend pipeline

The Python backend (`backend/app/modeling`, `decision`, `evidence`) is not
part of the verified tree; the definitions below are modelled from the
specification of the Market Model Builder, Scenario Generator, Sensitivity
Analyzer, Confidence Scorer and response assembly. -/

/-- Modelled from the spec: a Range Estimate of the Market Model Builder
(backend modeling module, not under the verified tree): numeric
`min ≤ base ≤ max`, a derivation `method`, assumption statements and the ids
of the Claims used. -/
structure RangeEstimate where
  min : Rat
  base : Rat
  max : Rat
  method : String
  assumptions : List String
  evidence_refs : List String
deriving DecidableEq

/-- Modelled from the spec: the TAM, SAM, SOM funnel of Range Estimates. -/
structure MarketModel where
  tam : RangeEstimate
  sam : RangeEstimate
  som : RangeEstimate
deriving DecidableEq

/-- Modelled from the spec: component-wise interval multiplication used by
the Builder to derive SAM and SOM (min times min, base times base, max times
max), accumulating assumptions and evidence references. -/
def mulRange (a b : RangeEstimate) : RangeEstimate :=
  { min := a.min * b.min
    base := a.base * b.base
    max := a.max * b.max
    method := "interval multiplication"
    assumptions := a.assumptions ++ b.assumptions
    evidence_refs := a.evidence_refs ++ b.evidence_refs }

/-- Modelled from the spec: the validation predicate on a funnel share range
(addressable-market share of TAM, obtainable-market share of SAM).  A share
of a whole is a fraction, and the validation step rejects negative inputs, so
every component lies between 0 and 1 and the range is ordered. -/
def validShare (r : RangeEstimate) : Prop :=
  0 ≤ r.min ∧ r.min ≤ r.base ∧ r.base ≤ r.max ∧ r.max ≤ 1

/-- Modelled from the spec: the ordering-with-nonnegativity invariant of an
aggregated TAM range (a validation step rejects negative inputs). -/
def validTam (r : RangeEstimate) : Prop :=
  0 ≤ r.min ∧ r.min ≤ r.base ∧ r.base ≤ r.max

/-- Modelled from the spec: the Market Model Builder.  Given the aggregated
TAM range and the two funnel share ranges, it computes
`sam = tam × addressable_share` and `som = sam × obtainable_share` by
component-wise interval multiplication. -/
def buildMarketModel (tam addressable_share obtainable_share : RangeEstimate) : MarketModel :=
  { tam := tam
    sam := mulRange tam addressable_share
    som := mulRange (mulRange tam addressable_share) obtainable_share }

/-- Modelled from the spec: the clamp of the Confidence Scorer output to the
interval from 0 to 100. -/
def clampScore (x : Int) : Int :=
  max 0 (min 100 x)

/-- Modelled from the spec: the Confidence Scorer, a deterministic function
of the credibility mix of the sources behind the Market Model, the number of
assumption-based segments, the risk count and the disconfirming-evidence
count.  The exact weights are left open by the specification; a
representative deterministic weighting is used, and the output is clamped to
the interval from 0 to 100. -/
def confidenceScore (highSources medSources lowSources assumptionSegments
    riskCount disconfirmingCount : Nat) : Int :=
  clampScore (50 + 10 * highSources + 5 * medSources + 2 * lowSources
    - 15 * assumptionSegments - 10 * riskCount - 5 * disconfirmingCount)

/-- A named Scenario: the resulting Market Model of one Builder re-invocation
(the report interface types the `market` field as `any`; the spec says it is
the Market Model). -/
structure Scenario where
  name : String
  market : MarketModel
deriving DecidableEq

/-- The `scenarios` field of the `AnalyzeResponse` interface: each of the
three named scenarios is declared optional. -/
structure Scenarios where
  bear : Option Scenario
  base : Option Scenario
  bull : Option Scenario
deriving DecidableEq

/-- Modelled from the spec: a documented multiplier set applied to the two
funnel shares for one scenario. -/
structure MultiplierSet where
  addressable_mult : Rat
  obtainable_mult : Rat
deriving DecidableEq

/-- Modelled from the spec: scaling every component of a range by a
multiplier, as the Scenario Generator and Sensitivity Analyzer adjust an
assumption range. -/
def scaleRange (m : Rat) (r : RangeEstimate) : RangeEstimate :=
  { r with min := m * r.min, base := m * r.base, max := m * r.max }

/-- Modelled from the spec: the Scenario Generator.  It re-invokes the
Builder three times: bear with the conservative multiplier set, base with the
unmodified shares, bull with the optimistic multiplier set; all three named
scenarios are produced. -/
def generateScenarios (tam addressable_share obtainable_share : RangeEstimate)
    (bearMult bullMult : MultiplierSet) : Scenarios :=
  { bear := some ⟨"bear",
      buildMarketModel tam (scaleRange bearMult.addressable_mult addressable_share)
        (scaleRange bearMult.obtainable_mult obtainable_share)⟩,
    base := some ⟨"base", buildMarketModel tam addressable_share obtainable_share⟩,
    bull := some ⟨"bull",
      buildMarketModel tam (scaleRange bullMult.addressable_mult addressable_share)
        (scaleRange bullMult.obtainable_mult obtainable_share)⟩ }

/-- A Sensitivity Result as in the spec and in the `sensitivity_analysis`
field of the report interface. -/
structure SensitivityResult where
  assumption_name : String
  base_som : Rat
  impact_minus_30pct : Rat
  impact_plus_30pct : Rat
  impact_magnitude : Rat
deriving DecidableEq

/-- Modelled from the spec: one Sensitivity Result, with
`impact_magnitude` the larger absolute change of `som.base` under the two
perturbations. -/
def mkSensitivityResult (name : String) (baseSom minusSom plusSom : Rat) : SensitivityResult :=
  { assumption_name := name
    base_som := baseSom
    impact_minus_30pct := minusSom
    impact_plus_30pct := plusSom
    impact_magnitude := max |baseSom - minusSom| |baseSom - plusSom| }

/-- The `som.base` produced by one Builder invocation. -/
def somBase (tam addressable_share obtainable_share : RangeEstimate) : Rat :=
  (buildMarketModel tam addressable_share obtainable_share).som.base

/-- Modelled from the spec: the Sensitivity Analyzer record for each tracked
assumption (the two funnel shares and the price), paired with its declaration
index, in declaration order.  Each assumption is perturbed by minus and plus
30 percent with the others fixed and `som.base` is recomputed via the
Builder; the price assumption never feeds the funnel, so its perturbation
leaves `som.base` unchanged. -/
def trackedSensitivities (tam addressable_share obtainable_share : RangeEstimate) :
    List (Nat × SensitivityResult) :=
  [(0, mkSensitivityResult "addressable_share" (somBase tam addressable_share obtainable_share)
      (somBase tam (scaleRange (7/10) addressable_share) obtainable_share)
      (somBase tam (scaleRange (13/10) addressable_share) obtainable_share)),
   (1, mkSensitivityResult "obtainable_share" (somBase tam addressable_share obtainable_share)
      (somBase tam addressable_share (scaleRange (7/10) obtainable_share))
      (somBase tam addressable_share (scaleRange (13/10) obtainable_share))),
   (2, mkSensitivityResult "price_assumption" (somBase tam addressable_share obtainable_share)
      (somBase tam addressable_share obtainable_share)
      (somBase tam addressable_share obtainable_share))]

/-- The ordering used to sort Sensitivity Results: strictly larger
`impact_magnitude` first, ties broken by declaration index (stable). -/
def sensLE (a b : Nat × SensitivityResult) : Prop :=
  b.2.impact_magnitude < a.2.impact_magnitude ∨
    (a.2.impact_magnitude = b.2.impact_magnitude ∧ a.1 ≤ b.1)

instance : DecidableRel sensLE := fun a b => by
  unfold sensLE
  infer_instance

instance : IsTotal (Nat × SensitivityResult) sensLE where
  total a b := by
    unfold sensLE
    rcases lt_trichotomy a.2.impact_magnitude b.2.impact_magnitude with h | h | h
    · exact Or.inr (Or.inl h)
    · rcases Nat.le_total a.1 b.1 with hi | hi
      · exact Or.inl (Or.inr ⟨h, hi⟩)
      · exact Or.inr (Or.inr ⟨h.symm, hi⟩)
    · exact Or.inl (Or.inl h)

instance : IsTrans (Nat × SensitivityResult) sensLE where
  trans a b c hab hbc := by
    rcases hab with h1 | ⟨e1, i1⟩ <;> rcases hbc with h2 | ⟨e2, i2⟩
    · exact Or.inl (h2.trans h1)
    · exact Or.inl (e2 ▸ h1)
    · refine Or.inl ?_
      rw [e1]
      exact h2
    · exact Or.inr ⟨e1.trans e2, i1.trans i2⟩

/-- Modelled from the spec: the Sensitivity Analyzer output, the tracked
results sorted by descending `impact_magnitude`, ties in declaration order. -/
def sensitivityAnalysis (tam addressable_share obtainable_share : RangeEstimate) :
    List (Nat × SensitivityResult) :=
  List.insertionSort sensLE (trackedSensitivities tam addressable_share obtainable_share)

/-! ### The report page (`frontend/app/report/page.tsx`)

The `AnalyzeResponse` interface, lines 6-66 of the source, and the render
conditions of the report component. -/

/-- The `verdict` union of the interface. -/
inductive Verdict where
  | GO : Verdict
  | NO_GO : Verdict
  | CONDITIONAL : Verdict
deriving DecidableEq

/-- The `market.tam` object of the interface: `method` is optional. -/
structure TamRange where
  min : Rat
  base : Rat
  max : Rat
  method : Option String
  assumptions : List String
deriving DecidableEq

/-- The `market.sam` object of the interface. -/
structure SamRange where
  min : Rat
  base : Rat
  max : Rat
  assumptions : List String
deriving DecidableEq

/-- The `market.som` object of the interface. -/
structure SomRange where
  min : Rat
  base : Rat
  max : Rat
  assumptions : List String
deriving DecidableEq

/-- The `market` object of the interface. -/
structure ResponseMarket where
  tam : TamRange
  sam : SamRange
  som : SomRange
deriving DecidableEq

/-- One entry of the `competitors` array of the interface: `source_url` is a
required field. -/
structure Competitor where
  name : String
  positioning : String
  pricing : String
  geography : String
  differentiator : String
  source_url : String
deriving DecidableEq

/-- The `risks` object of the interface. -/
structure RiskLists where
  market : List String
  competition : List String
  regulatory : List String
  distribution : List String
deriving DecidableEq

/-- One entry of the `sources` array of the interface. -/
structure SourceEntry where
  title : String
  url : String
  excerpt : String
deriving DecidableEq

/-- One entry of the `next_7_days_tests` array of the interface. -/
structure NextTest where
  test : String
  method : String
  success_threshold : String
deriving DecidableEq

/-- One entry of the optional `evidence_ledger` array of the interface. -/
structure LedgerEntry where
  id : String
  claim_text : String
  claim_type : String
  value : Option Rat
  unit : Option String
  source_url : String
  excerpt : String
  retrieved_at : String
  credibility_score : String
  claim_confidence : String
deriving DecidableEq

/-- The `AnalyzeResponse` interface. -/
structure AnalyzeResponse where
  verdict : Verdict
  confidence_score : Int
  executive_summary : List String
  market : ResponseMarket
  competitors : List Competitor
  risks : RiskLists
  assumptions : List String
  disconfirming_evidence : List String
  sources : List SourceEntry
  key_unknowns : List String
  next_7_days_tests : List NextTest
  scenarios : Scenarios
  sensitivity_analysis : List SensitivityResult
  evidence_ledger : Option (List LedgerEntry)
deriving DecidableEq

/-- The core pipeline output behind a response: every `AnalyzeResponse` field
except the debug-gated `evidence_ledger`. -/
structure CoreOutput where
  verdict : Verdict
  confidence_score : Int
  executive_summary : List String
  market : ResponseMarket
  competitors : List Competitor
  risks : RiskLists
  assumptions : List String
  disconfirming_evidence : List String
  sources : List SourceEntry
  key_unknowns : List String
  next_7_days_tests : List NextTest
  scenarios : Scenarios
  sensitivity_analysis : List SensitivityResult
deriving DecidableEq

/-- Modelled from the spec: the API layer serializes the core output into the
`AnalyzeResponse`; the full Evidence Ledger is included exactly when the
request asked for `debug`. -/
def assembleResponse (core : CoreOutput) (debug : Bool) (ledger : List LedgerEntry) :
    AnalyzeResponse :=
  { verdict := core.verdict
    confidence_score := core.confidence_score
    executive_summary := core.executive_summary
    market := core.market
    competitors := core.competitors
    risks := core.risks
    assumptions := core.assumptions
    disconfirming_evidence := core.disconfirming_evidence
    sources := core.sources
    key_unknowns := core.key_unknowns
    next_7_days_tests := core.next_7_days_tests
    scenarios := core.scenarios
    sensitivity_analysis := core.sensitivity_analysis
    evidence_ledger := if debug then some ledger else none }

/-- The render condition of the Evidence Ledger section of the report page:
the section sits inside the debug-mode block (line 728) and is additionally
guarded by the ledger being present and non-empty (line 754). -/
def rendersEvidenceLedger (debugMode : Bool) (data : AnalyzeResponse) : Bool :=
  debugMode &&
    (match data.evidence_ledger with
      | some l => decide (0 < l.length)
      | none => false)

/-- One rendered row of the Competitors table (lines 523-544 of the report
page): five text cells and the Source cell, whose anchor always links
`source_url`. -/
structure CompetitorRow where
  name : String
  positioning : String
  pricing : String
  geography : String
  differentiator : String
  source_link : String
deriving DecidableEq

/-- Renders one competitor entry as a table row; the source anchor is emitted
unconditionally with `href` equal to the entry's `source_url`. -/
def renderCompetitorRow (c : Competitor) : CompetitorRow :=
  { name := c.name
    positioning := c.positioning
    pricing := c.pricing
    geography := c.geography
    differentiator := c.differentiator
    source_link := c.source_url }

/-- The Competitors section (line 506): rendered only for a non-empty list,
one row per entry in order. -/
def renderCompetitorsTable (cs : List Competitor) : List CompetitorRow :=
  if 0 < cs.length then cs.map renderCompetitorRow else []

/-! ### Concrete inputs used by witnesses and counterexamples -/

/-- A form state whose `price_assumption` is the negative literal "-5" and
whose remaining fields are valid. -/
def negPriceForm : FormData :=
  { idea := "A marketplace for vintage synthesizers"
    industry := "E-commerce"
    geography := "Global"
    customer_type := "Consumer"
    business_model := "Marketplace"
    price_assumption := "-5"
    notes := "" }

/-- A concrete errors map holding the idea error, as `validateForm` sets
it. -/
def wErrors : String → Option String :=
  fun n => if n = "idea" then some "Startup idea is required" else none

/-- A concrete validated TAM range. -/
def wTam : RangeEstimate :=
  { min := 1, base := 2, max := 3, method := "credibility-weighted aggregation"
    assumptions := [], evidence_refs := ["claim-1"] }

/-- A concrete valid addressable-share range. -/
def wAddr : RangeEstimate :=
  { min := 0, base := 1, max := 1, method := "declared default"
    assumptions := ["addressable share default"], evidence_refs := [] }

/-- A concrete valid obtainable-share range. -/
def wObt : RangeEstimate :=
  { min := 0, base := 1, max := 1, method := "declared default"
    assumptions := ["obtainable share default"], evidence_refs := [] }

/-- A concrete evidence-ledger entry. -/
def wLedgerEntry : LedgerEntry :=
  { id := "claim-1"
    claim_text := "Market size is 5 billion USD"
    claim_type := "market_size"
    value := some 5
    unit := some "billion USD"
    source_url := "https://example.com/report"
    excerpt := "the market reached 5 billion"
    retrieved_at := "2024-01-01T00:00:00Z"
    credibility_score := "high"
    claim_confidence := "high" }

/-- A concrete competitor entry. -/
def wCompetitor : Competitor :=
  { name := "Acme"
    positioning := "incumbent"
    pricing := "9.99 monthly"
    geography := "Global"
    differentiator := "brand"
    source_url := "https://example.com/acme" }

/-- A concrete core pipeline output. -/
def wCore : CoreOutput :=
  { verdict := Verdict.CONDITIONAL
    confidence_score := 50
    executive_summary := ["summary line"]
    market := { tam := { min := 1, base := 2, max := 3, method := none, assumptions := [] }
                sam := { min := 1, base := 2, max := 3, assumptions := [] }
                som := { min := 1, base := 2, max := 3, assumptions := [] } }
    competitors := [wCompetitor]
    risks := { market := [], competition := [], regulatory := [], distribution := [] }
    assumptions := ["assumption"]
    disconfirming_evidence := []
    sources := []
    key_unknowns := []
    next_7_days_tests := []
    scenarios := { bear := none, base := none, bull := none }
    sensitivity_analysis := [] }

/-- The response assembled from the concrete core output in debug mode. -/
def wResponse : AnalyzeResponse :=
  assembleResponse wCore true [wLedgerEntry]

/-! ### Theorems about the input form -/

/-- `validateForm` succeeds exactly on well-formed input: idea and industry
trim to non-empty text, the three selects are non-empty, and the price field
is empty or parses. -/
theorem validateFormOk_iff (fd : FormData) :
    validateFormOk fd = true ↔
      (jsTrim fd.idea ≠ "" ∧ jsTrim fd.industry ≠ "" ∧ fd.geography ≠ "" ∧
        fd.customer_type ≠ "" ∧ fd.business_model ≠ "" ∧
        (fd.price_assumption = "" ∨ parseFloat fd.price_assumption ≠ none)) := by
  unfold validateFormOk validateForm
  simp only [List.length_append, beq_iff_eq, Nat.add_eq_zero]
  split_ifs with h1 h2 h3 h4 h5 h6 <;> simp_all
  tauto

/-- C3 counterexample: the form state `negPriceForm` with price field "-5"
passes `validateForm`, and `handleSubmit` stores a request whose
`price_assumption` is the negative number -5, so validation does not reject
negative price inputs. -/
theorem validateForm_accepts_negative_price :
    validateFormOk negPriceForm = true ∧
    handleSubmit negPriceForm = SubmitOutcome.submitted (buildRequest negPriceForm) ∧
    (buildRequest negPriceForm).price_assumption = StoredPrice.num (-5) ∧
    (-5 : Rat) < 0 := by
  refine ⟨by decide, by decide, by decide, by decide⟩

/-- C3 amended: every request stored by `handleSubmit` has a
`price_assumption` that is either null or a number (never NaN); negative
numbers are not rejected.  The only rejection `validateForm` performs on the
price field is of non-empty input that does not parse as a number. -/
theorem stored_price_null_or_number (fd : FormData) (r : RequestData)
    (h : handleSubmit fd = SubmitOutcome.submitted r) :
    r.price_assumption = StoredPrice.null ∨ ∃ q : Rat, r.price_assumption = StoredPrice.num q := by
  unfold handleSubmit at h
  by_cases hv : validateFormOk fd = true
  · rw [if_pos hv] at h
    injection h with h
    subst h
    unfold buildRequest
    by_cases hp : fd.price_assumption = ""
    · left
      simp [hp]
    · right
      have hpf : parseFloat fd.price_assumption ≠ none :=
        (((validateFormOk_iff fd).mp hv).2.2.2.2.2).resolve_left hp
      cases hq : parseFloat fd.price_assumption with
      | none => exact absurd hq hpf
      | some q =>
        refine ⟨q, ?_⟩
        simp [hp, hq]
  · rw [if_neg hv] at h
    exact SubmitOutcome.noConfusion h

/-- C3 amended witness: the negative-price form is submitted and its stored
price is the number -5. -/
theorem stored_price_null_or_number_witness :
    (buildRequest negPriceForm).price_assumption = StoredPrice.null ∨
      ∃ q : Rat, (buildRequest negPriceForm).price_assumption = StoredPrice.num q :=
  stored_price_null_or_number negPriceForm (buildRequest negPriceForm) (by decide)

/-- C4: form validation fails exactly on malformed input, and `handleSubmit`
stores the request and navigates exactly when validation succeeds, otherwise
it only records at least one per-field error. -/
theorem form_validation_correct :
    (∀ fd : FormData, validateFormOk fd = true ↔
      (jsTrim fd.idea ≠ "" ∧ jsTrim fd.industry ≠ "" ∧ fd.geography ≠ "" ∧
        fd.customer_type ≠ "" ∧ fd.business_model ≠ "" ∧
        (fd.price_assumption = "" ∨ parseFloat fd.price_assumption ≠ none))) ∧
    (∀ fd : FormData,
      (validateFormOk fd = true → handleSubmit fd = SubmitOutcome.submitted (buildRequest fd)) ∧
      (validateFormOk fd = false →
        handleSubmit fd = SubmitOutcome.rejected (validateForm fd) ∧ validateForm fd ≠ [])) := by
  refine ⟨validateFormOk_iff, fun fd => ⟨?_, ?_⟩⟩
  · intro h
    unfold handleSubmit
    rw [if_pos h]
  · intro h
    have h' : ¬ validateFormOk fd = true := by simp [h]
    unfold handleSubmit
    rw [if_neg h']
    refine ⟨rfl, fun hnil => ?_⟩
    unfold validateFormOk at h
    rw [hnil] at h
    simp at h

/-- C4 witness: the example form data validates and is submitted. -/
theorem form_validation_correct_witness :
    handleSubmit exampleData = SubmitOutcome.submitted (buildRequest exampleData) :=
  (form_validation_correct.2 exampleData).1 (by decide)

/-- C9: every request built and stored by `handleSubmit` carries
`debug = false`, regardless of the form contents. -/
theorem submitted_debug_false (fd : FormData) :
    (buildRequest fd).debug = false ∧
    (∀ r : RequestData, handleSubmit fd = SubmitOutcome.submitted r → r.debug = false) := by
  refine ⟨rfl, fun r h => ?_⟩
  unfold handleSubmit at h
  split at h
  · injection h with h
    rw [← h]
    rfl
  · exact SubmitOutcome.noConfusion h

/-- C9 witness: the request stored for the example form data has
`debug = false`. -/
theorem submitted_debug_false_witness :
    (buildRequest exampleData).debug = false :=
  (submitted_debug_false exampleData).2 (buildRequest exampleData) (by decide)

/-- C10: `handleChange` for field `name` sets exactly that `formData` entry
to the new value and deletes exactly that error entry when present; every
other `formData` field and error entry is unchanged.  (Error messages stored
by the component are never the empty string, so the entry is truthy whenever
present.) -/
theorem handleChange_frame (name value : String) (formData : String → String)
    (errors : String → Option String) (hmsg : errors name ≠ some "") :
    (handleChange name value formData errors).1 name = value ∧
    ((errors name).isSome → (handleChange name value formData errors).2 name = none) ∧
    (∀ y, y ≠ name → (handleChange name value formData errors).1 y = formData y) ∧
    (∀ y, y ≠ name → (handleChange name value formData errors).2 y = errors y) := by
  unfold handleChange
  refine ⟨Function.update_same _ _ _, ?_, ?_, ?_⟩
  · intro hsome
    cases he : errors name with
    | none =>
      rw [he] at hsome
      simp at hsome
    | some s =>
      have hs : s ≠ "" := fun h => hmsg (by rw [he, h])
      have ht : jsTruthy (some s) = true := by
        simpa [jsTruthy] using hs
      rw [if_pos ht]
      exact Function.update_same _ _ _
  · intro y hy
    exact Function.update_noteq hy _ _
  · intro y hy
    by_cases ht : jsTruthy (errors name) = true
    · rw [if_pos ht]
      exact Function.update_noteq hy _ _
    · rw [if_neg ht]

/-- C10 witness: changing the idea field updates only it and clears only its
error. -/
theorem handleChange_frame_witness :
    (handleChange "idea" "x" (fun _ => ("" : String)) wErrors).1 "idea" = "x" ∧
    (handleChange "idea" "x" (fun _ => ("" : String)) wErrors).2 "idea" = none ∧
    (handleChange "idea" "x" (fun _ => ("" : String)) wErrors).2 "notes" = wErrors "notes" := by
  have h := handleChange_frame "idea" "x" (fun _ => ("" : String)) wErrors (by decide)
  exact ⟨h.1, h.2.1 (by decide), h.2.2.2 "notes" (by decide)⟩

/-! ### Theorems about the spec-modelled pipeline and the report page -/

/-- C1: the Market Model built from a validated TAM range and validated
funnel shares satisfies funnel monotonicity: `sam.base ≤ tam.base` and
`som.base ≤ sam.base`, and the same ordering holds independently for the min
components and for the max components. -/
theorem market_model_funnel_monotone (tam addr obt : RangeEstimate)
    (htam : validTam tam) (haddr : validShare addr) (hobt : validShare obt) :
    ((buildMarketModel tam addr obt).sam.base ≤ (buildMarketModel tam addr obt).tam.base ∧
      (buildMarketModel tam addr obt).som.base ≤ (buildMarketModel tam addr obt).sam.base) ∧
    ((buildMarketModel tam addr obt).sam.min ≤ (buildMarketModel tam addr obt).tam.min ∧
      (buildMarketModel tam addr obt).som.min ≤ (buildMarketModel tam addr obt).sam.min) ∧
    ((buildMarketModel tam addr obt).sam.max ≤ (buildMarketModel tam addr obt).tam.max ∧
      (buildMarketModel tam addr obt).som.max ≤ (buildMarketModel tam addr obt).sam.max) := by
  obtain ⟨ht0, ht1, ht2⟩ := htam
  obtain ⟨ha0, ha1, ha2, ha3⟩ := haddr
  obtain ⟨ho0, ho1, ho2, ho3⟩ := hobt
  have htb : (0 : Rat) ≤ tam.base := ht0.trans ht1
  have htm : (0 : Rat) ≤ tam.max := htb.trans ht2
  have hab : addr.base ≤ 1 := ha2.trans ha3
  have ham : addr.min ≤ 1 := ha1.trans hab
  have hob : obt.base ≤ 1 := ho2.trans ho3
  have hom : obt.min ≤ 1 := ho1.trans hob
  have hanb : (0 : Rat) ≤ addr.base := ha0.trans ha1
  have hanx : (0 : Rat) ≤ addr.max := hanb.trans ha2
  simp only [buildMarketModel, mulRange]
  refine ⟨⟨?_, ?_⟩, ⟨?_, ?_⟩, ⟨?_, ?_⟩⟩
  · exact mul_le_of_le_one_right htb hab
  · exact mul_le_of_le_one_right (mul_nonneg htb hanb) hob
  · exact mul_le_of_le_one_right ht0 ham
  · exact mul_le_of_le_one_right (mul_nonneg ht0 ha0) hom
  · exact mul_le_of_le_one_right htm ha3
  · exact mul_le_of_le_one_right (mul_nonneg htm hanx) ho3

/-- C1 witness: funnel monotonicity of the base components at concrete
validated ranges. -/
theorem market_model_funnel_monotone_witness :
    (buildMarketModel wTam wAddr wObt).sam.base ≤ (buildMarketModel wTam wAddr wObt).tam.base ∧
    (buildMarketModel wTam wAddr wObt).som.base ≤ (buildMarketModel wTam wAddr wObt).sam.base :=
  (market_model_funnel_monotone wTam wAddr wObt
    ⟨by decide, by decide, by decide⟩
    ⟨by decide, by decide, by decide, by decide⟩
    ⟨by decide, by decide, by decide, by decide⟩).1

/-- C2: the Confidence Scorer output is an integer in the closed interval
from 0 to 100 for every input. -/
theorem confidence_score_in_range (h m l a r d : Nat) :
    0 ≤ confidenceScore h m l a r d ∧ confidenceScore h m l a r d ≤ 100 := by
  unfold confidenceScore clampScore
  exact ⟨le_max_left 0 _, max_le (by norm_num) (min_le_left _ _)⟩

/-- C5: the assembled response contains the `evidence_ledger` field exactly
when the request asked for `debug`, and the report page renders the Evidence
Ledger section only when debug mode is on and the ledger is present and
non-empty. -/
theorem evidence_ledger_debug_gated :
    (∀ (core : CoreOutput) (debug : Bool) (ledger : List LedgerEntry),
      ((assembleResponse core debug ledger).evidence_ledger).isSome = debug) ∧
    (∀ (debugMode : Bool) (data : AnalyzeResponse),
      rendersEvidenceLedger debugMode data = true →
        debugMode = true ∧ ∃ l, data.evidence_ledger = some l ∧ 0 < l.length) := by
  constructor
  · intro core debug ledger
    cases debug <;> simp [assembleResponse]
  · intro dm data h
    unfold rendersEvidenceLedger at h
    rw [Bool.and_eq_true] at h
    obtain ⟨h1, h2⟩ := h
    refine ⟨h1, ?_⟩
    cases hl : data.evidence_ledger with
    | none =>
      rw [hl] at h2
      simp at h2
    | some l =>
      rw [hl] at h2
      simp at h2
      exact ⟨l, rfl, h2⟩

/-- C5 witness: in debug mode the assembled response carries the ledger, and
the concrete debug-mode response renders the Evidence Ledger section. -/
theorem evidence_ledger_debug_gated_witness :
    (assembleResponse wCore true [wLedgerEntry]).evidence_ledger.isSome = true ∧
    (true = true ∧ ∃ l, wResponse.evidence_ledger = some l ∧ 0 < l.length) :=
  ⟨evidence_ledger_debug_gated.1 wCore true [wLedgerEntry],
   evidence_ledger_debug_gated.2 true wResponse (by decide)⟩

/-- C6: the Scenario Generator produces all three named scenarios bear, base
and bull, each by re-invoking the Builder, with base the unmodified Builder
output; none of the three is absent. -/
theorem scenarios_all_present (tam addr obt : RangeEstimate)
    (bearMult bullMult : MultiplierSet) :
    (generateScenarios tam addr obt bearMult bullMult).bear.isSome = true ∧
    (generateScenarios tam addr obt bearMult bullMult).base.isSome = true ∧
    (generateScenarios tam addr obt bearMult bullMult).bull.isSome = true ∧
    (generateScenarios tam addr obt bearMult bullMult).base =
      some ⟨"base", buildMarketModel tam addr obt⟩ ∧
    (generateScenarios tam addr obt bearMult bullMult).bear =
      some ⟨"bear", buildMarketModel tam (scaleRange bearMult.addressable_mult addr)
        (scaleRange bearMult.obtainable_mult obt)⟩ ∧
    (generateScenarios tam addr obt bearMult bullMult).bull =
      some ⟨"bull", buildMarketModel tam (scaleRange bullMult.addressable_mult addr)
        (scaleRange bullMult.obtainable_mult obt)⟩ :=
  ⟨rfl, rfl, rfl, rfl, rfl, rfl⟩

/-- C7: every competitor entry carries its `source_url` into the rendered
table: the table maps each entry to a row and the row's source anchor is
emitted unconditionally, linking that entry's `source_url`. -/
theorem competitors_source_links (cs : List Competitor) (c : Competitor) (hc : c ∈ cs) :
    (renderCompetitorRow c).source_link = c.source_url ∧
    renderCompetitorsTable cs = cs.map renderCompetitorRow ∧
    renderCompetitorRow c ∈ renderCompetitorsTable cs := by
  have hlen : 0 < cs.length := by
    cases cs with
    | nil => exact absurd hc (List.not_mem_nil c)
    | cons a l => simp
  refine ⟨rfl, ?_, ?_⟩
  · unfold renderCompetitorsTable
    rw [if_pos hlen]
  · unfold renderCompetitorsTable
    rw [if_pos hlen]
    exact List.mem_map_of_mem renderCompetitorRow hc

/-- C7 witness: the single concrete competitor is rendered with its source
link. -/
theorem competitors_source_links_witness :
    (renderCompetitorRow wCompetitor).source_link = wCompetitor.source_url ∧
    renderCompetitorsTable [wCompetitor] = [wCompetitor].map renderCompetitorRow ∧
    renderCompetitorRow wCompetitor ∈ renderCompetitorsTable [wCompetitor] :=
  competitors_source_links [wCompetitor] wCompetitor (by decide)

/-- C8: the sensitivity analysis output is sorted by `impact_magnitude`
descending, ties kept in declaration order, and every entry's magnitude is
the larger absolute deviation of `som.base` under the minus and plus 30
percent perturbations. -/
theorem sensitivity_sorted_and_magnitude (tam addr obt : RangeEstimate) :
    List.Pairwise (fun a b => b.2.impact_magnitude ≤ a.2.impact_magnitude ∧
        (a.2.impact_magnitude = b.2.impact_magnitude → a.1 ≤ b.1))
      (sensitivityAnalysis tam addr obt) ∧
    (sensitivityAnalysis tam addr obt).map (fun x => x.2.impact_magnitude) =
      (sensitivityAnalysis tam addr obt).map (fun x =>
        max |x.2.base_som - x.2.impact_minus_30pct| |x.2.base_som - x.2.impact_plus_30pct|) := by
  constructor
  · have hs := List.sorted_insertionSort sensLE (trackedSensitivities tam addr obt)
    refine hs.imp (fun hab => ?_)
    rcases hab with h | ⟨he, hi⟩
    · exact ⟨le_of_lt h, fun e => absurd (e ▸ h) (lt_irrefl _)⟩
    · exact ⟨le_of_eq he.symm, fun _ => hi⟩
  · refine List.map_congr_left ?_
    intro x hx
    have hx' : x ∈ trackedSensitivities tam addr obt :=
      (List.perm_insertionSort sensLE (trackedSensitivities tam addr obt)).mem_iff.mp hx
    simp only [trackedSensitivities, List.mem_cons, List.not_mem_nil, or_false] at hx'
    rcases hx' with rfl | rfl | rfl <;> rfl
